import Mathlib

/-
A shallow embedding of `controllers/topology/desired_state.go` from the
cluster-api repository: the desired-state compiler for the class-based
cluster topology system.  Go maps are modelled as association lists with
Go-map update semantics (`GoMap`), nillable pointers as `Option`, and the
external collaborators (unique-name generator, template generator,
contract accessors on unstructured objects) as explicit function
parameters bundled in `Externals`.  Fallible Go functions returning
`(T, error)` become `Except String T`.
-/

namespace CAPI

/-! ## Go maps as association lists

A Go `map[string]α` is modelled as an association list whose keys are
unique by construction (every update goes through `GoMap.insert`, which
replaces the binding of an existing key in place and otherwise appends).
-/

namespace GoMap

/-- Lookup in the model of a Go map (`m[k]` with the comma-ok idiom). -/
def find {α : Type} : List (String × α) → String → Option α
  | [], _ => none
  | (k0, v0) :: t, k => if k0 = k then some v0 else find t k

/-- Update in the model of a Go map (`m[k] = v`): replaces the binding of
an existing key, otherwise appends the new binding. -/
def insert {α : Type} : List (String × α) → String → α → List (String × α)
  | [], k, v => [(k, v)]
  | (k0, v0) :: t, k, v => if k0 = k then (k0, v) :: t else (k0, v0) :: insert t k v

/-- The keys of the modelled Go map. -/
def keys {α : Type} (m : List (String × α)) : List String :=
  m.map Prod.fst

/-- Inserting every binding of `l` into `m`, in order
(`for k, v := range l: m[k] = v`). -/
def insertAll {α : Type} (m l : List (String × α)) : List (String × α) :=
  l.foldl (fun acc kv => insert acc kv.1 kv.2) m

end GoMap

/-- A Go `map[string]string` (labels and annotations). -/
abbrev SMap := List (String × String)

/-- mergeMap merges two maps into another one; in case a key exists in
both maps, the value in the first map is preserved
(source: `mergeMap` — make a new map, copy `b` in, then copy `a` in). -/
def mergeMap (a b : SMap) : SMap :=
  GoMap.insertAll (GoMap.insertAll [] b) a

/-! ## Label and annotation key constants

Modelled from the spec: the global label/annotation key constants of the
`clusterv1` API package (the package is not part of the extracted source);
a small closed set of named constants. -/

/-- Modelled from the spec: the cluster-identity label key
(`clusterv1.ClusterLabelName`). -/
def clusterLabelName : String := "cluster.x-k8s.io/cluster-name"

/-- Modelled from the spec: the topology-ownership marker label key
(`clusterv1.ClusterTopologyOwnedLabel`). -/
def clusterTopologyOwnedLabel : String := "topology.cluster.x-k8s.io/owned"

/-- Modelled from the spec: the worker-group-identity label key
(`clusterv1.ClusterTopologyMachineDeploymentLabelName`). -/
def clusterTopologyMachineDeploymentLabelName : String := "topology.cluster.x-k8s.io/deployment-name"

/-- Modelled from the spec: the cloned-from-name provenance annotation key
(`clusterv1.TemplateClonedFromNameAnnotation`). -/
def templateClonedFromNameKey : String := "cluster.x-k8s.io/cloned-from-name"

/-- Modelled from the spec: the cloned-from-group-kind provenance annotation
key (`clusterv1.TemplateClonedFromGroupKindAnnotation`). -/
def templateClonedFromGroupKindKey : String := "cluster.x-k8s.io/cloned-from-groupkind"

/-- Modelled from the spec: the group/version string of the cluster API
(`clusterv1.GroupVersion.String()`). -/
def clusterAPIVersion : String := "cluster.x-k8s.io/v1alpha4"

/-! ## References and unstructured objects -/

/-- A `corev1.ObjectReference` (the fields the compiler reads). -/
structure ObjectReference where
  kind : String
  apiVersion : String
  name : String
  ns : String
deriving DecidableEq, Repr, Inhabited

/-- The group of an `apiVersion` string: `group/version` (exactly one
slash) has the group before the slash, anything else (in particular a
bare core-group version) has the empty group — the split-on-slash parse
of `schema.FromAPIVersionAndKind`, written structurally over the
character list. -/
def apiVersionGroup (apiVersion : String) : String :=
  let cs := apiVersion.toList
  if cs.count ('/') = 1 then String.mk (cs.takeWhile (fun c => c ≠ ('/'))) else ""

/-- `ref.GroupVersionKind().GroupKind().String()`: the kind, followed by a
dot and the group when the group is non-empty. -/
def ObjectReference.groupKindString (r : ObjectReference) : String :=
  let g := apiVersionGroup r.apiVersion
  if g = "" then r.kind else r.kind ++ "." ++ g

/-- An `unstructured.Unstructured` object.  Top-level object metadata is
explicit; following the design note of the spec, the untyped payload is
restricted to the well-known field paths the compiler actually reads or
writes through the typed contract accessors (machine-template
infrastructure reference, machine-template metadata, replicas, version);
the rest of the payload is never interpreted by the compiler. -/
structure Unstructured where
  apiVersion : String
  kind : String
  name : String
  ns : String
  labels : Option SMap
  annotations : Option SMap
  resourceVersion : String
  uid : String
  finalizers : Option (List String)
  selfLink : String
  machineTemplateInfraRef : Option ObjectReference
  machineTemplateLabels : Option SMap
  machineTemplateAnnotations : Option SMap
  replicas : Option Int
  version : Option String
deriving DecidableEq, Repr, Inhabited

/-- `u.SetName(n)`. -/
def Unstructured.setName (u : Unstructured) (n : String) : Unstructured :=
  { u with name := n }

/-- `u.SetResourceVersion(rv)`. -/
def Unstructured.setResourceVersion (u : Unstructured) (rv : String) : Unstructured :=
  { u with resourceVersion := rv }

/-- `u.SetUID(id)`. -/
def Unstructured.setUID (u : Unstructured) (id : String) : Unstructured :=
  { u with uid := id }

/-- `u.SetSelfLink(l)`. -/
def Unstructured.setSelfLink (u : Unstructured) (l : String) : Unstructured :=
  { u with selfLink := l }

/-- `u.SetFinalizers(fs)` (`nil` becomes `none`). -/
def Unstructured.setFinalizers (u : Unstructured) (fs : Option (List String)) : Unstructured :=
  { u with finalizers := fs }

/-- `u.SetLabels(l)`. -/
def Unstructured.setLabels (u : Unstructured) (l : SMap) : Unstructured :=
  { u with labels := some l }

/-- `u.SetAnnotations(a)`. -/
def Unstructured.setAnnotations (u : Unstructured) (a : SMap) : Unstructured :=
  { u with annotations := some a }

/-- Modelled from the spec: the reference constructor
`contract.ObjToRef(object)` — group/version/kind/name/namespace of the
object, as a reference (the `contract` package is not part of the
extracted source). -/
def objToRef (u : Unstructured) : ObjectReference :=
  { kind := u.kind, apiVersion := u.apiVersion, name := u.name, ns := u.ns }

/-! ## Typed API objects (`clusterv1`) -/

/-- `clusterv1.ObjectMeta` (template-level metadata): labels and
annotations.  A nil Go map and an empty one behave identically in every
read the compiler performs on these fields, so both are modelled as the
empty list. -/
structure ClusterObjectMeta where
  labels : SMap
  annotations : SMap
deriving DecidableEq, Repr, Inhabited

/-- `clusterv1.Bootstrap`: the bootstrap configuration reference of a
machine spec (`ConfigRef` is a nillable pointer). -/
structure Bootstrap where
  configRef : Option ObjectReference
deriving DecidableEq, Repr, Inhabited

/-- `clusterv1.MachineSpec` (the fields the compiler writes or reads). -/
structure MachineSpec where
  clusterName : String
  version : Option String
  bootstrap : Bootstrap
  infrastructureRef : ObjectReference
deriving DecidableEq, Repr, Inhabited

/-- `clusterv1.MachineTemplateSpec`: embedded template metadata plus the
machine spec.  The label/annotation maps here are always assigned from
`mergeMap` (never nil) before being read or written, so they are modelled
as plain maps. -/
structure MachineTemplateSpec where
  labels : SMap
  annotations : SMap
  spec : MachineSpec
deriving DecidableEq, Repr, Inhabited

/-- `clusterv1.MachineDeploymentSpec` (the fields the compiler writes). -/
structure MachineDeploymentSpec where
  clusterName : String
  replicas : Option Int
  template : MachineTemplateSpec
deriving DecidableEq, Repr, Inhabited

/-- `clusterv1.MachineDeployment`. -/
structure MachineDeployment where
  kind : String
  apiVersion : String
  name : String
  ns : String
  labels : Option SMap
  spec : MachineDeploymentSpec
deriving DecidableEq, Repr, Inhabited

/-- `md.SetName(n)`. -/
def MachineDeployment.setName (m : MachineDeployment) (n : String) : MachineDeployment :=
  { m with name := n }

/-- `md.SetLabels(l)`. -/
def MachineDeployment.setLabels (m : MachineDeployment) (l : SMap) : MachineDeployment :=
  { m with labels := some l }

/-- `clusterv1.Cluster` (the fields the compiler reads or writes):
object metadata plus the spec-level infrastructure and control-plane
references. -/
structure Cluster where
  name : String
  ns : String
  labels : Option SMap
  infrastructureRef : Option ObjectReference
  controlPlaneRef : Option ObjectReference
deriving DecidableEq, Repr, Inhabited

/-! ## Topology, blueprint, scope (`scope` package)

The `scope` package is not part of the extracted source; its structures
are modelled from the spec's data model (blueprint, topology, current
state, desired state). -/

/-- Modelled from the spec: the control-plane slice of the topology —
optional replica count and metadata overrides
(`clusterv1.ControlPlaneTopology`). -/
structure ControlPlaneTopology where
  metadata : ClusterObjectMeta
  replicas : Option Int
deriving DecidableEq, Repr, Inhabited

/-- Modelled from the spec: one worker entry of the topology — a blueprint
class name (`Class`, renamed here because `class` is reserved), a unique
instance name, optional replica count and metadata overrides
(`clusterv1.MachineDeploymentTopology`). -/
structure MachineDeploymentTopology where
  metadata : ClusterObjectMeta
  clsName : String
  name : String
  replicas : Option Int
deriving DecidableEq, Repr, Inhabited

/-- Modelled from the spec: the instance-specific intent — target version,
control-plane intent, and the ordered worker entries
(`clusterv1.Topology`, with `Workers.MachineDeployments` flattened to a
list; a nil `Workers` and an empty entry list are indistinguishable to
the compiler). -/
structure Topology where
  version : String
  controlPlane : ControlPlaneTopology
  workers : List MachineDeploymentTopology
deriving DecidableEq, Repr, Inhabited

/-- Modelled from the spec: the `ClusterClass` fields the compiler reads —
its name, the template references for infrastructure and control plane,
the optional machine-infrastructure reference, and class-level
control-plane metadata defaults. -/
structure ClusterClass where
  name : String
  infrastructureRef : ObjectReference
  controlPlaneRef : ObjectReference
  controlPlaneMachineInfrastructureRef : Option ObjectReference
  controlPlaneMetadata : ClusterObjectMeta
deriving DecidableEq, Repr, Inhabited

/-- Modelled from the spec: the machine-deployment class blueprint —
bootstrap template, infrastructure-machine template and default metadata
(`scope.MachineDeploymentBlueprint`). -/
structure MachineDeploymentBlueprint where
  metadata : ClusterObjectMeta
  bootstrapTemplate : Unstructured
  infrastructureMachineTemplate : Unstructured
deriving DecidableEq, Repr, Inhabited

/-- Modelled from the spec: the control-plane slice of the blueprint —
the control-plane template and the optional infrastructure-machine
template (`scope.ControlPlaneBlueprint`). -/
structure ControlPlaneBlueprint where
  template : Unstructured
  infrastructureMachineTemplate : Option Unstructured
deriving DecidableEq, Repr, Inhabited

/-- Modelled from the spec: the blueprint — cluster class, topology,
infrastructure-cluster template, control-plane blueprint, and the mapping
from machine-deployment class name to its blueprint
(`scope.ClusterBlueprint`). -/
structure Blueprint where
  clusterClass : ClusterClass
  topology : Topology
  infrastructureClusterTemplate : Unstructured
  controlPlane : ControlPlaneBlueprint
  machineDeployments : List (String × MachineDeploymentBlueprint)
deriving DecidableEq, Repr, Inhabited

/-- Modelled from the spec: whether the blueprint mandates that the
control plane has infrastructure machines
(`Blueprint.HasControlPlaneInfrastructureMachine`). -/
def hasControlPlaneInfrastructureMachine (b : Blueprint) : Bool :=
  b.clusterClass.controlPlaneMachineInfrastructureRef.isSome

/-- Modelled from the spec: whether the topology lists worker machine
deployments (`Blueprint.HasMachineDeployments`). -/
def hasMachineDeployments (b : Blueprint) : Bool :=
  !b.topology.workers.isEmpty

/-- `scope.ControlPlaneState`: the control-plane object and its optional
infrastructure-machine template (both nillable pointers). -/
structure ControlPlaneState where
  object : Option Unstructured
  infrastructureMachineTemplate : Option Unstructured
deriving DecidableEq, Repr, Inhabited

/-- `scope.MachineDeploymentState`: the machine-deployment object and its
resolved bootstrap / infrastructure-machine templates (all nillable
pointers). -/
structure MachineDeploymentState where
  object : Option MachineDeployment
  bootstrapTemplate : Option Unstructured
  infrastructureMachineTemplate : Option Unstructured
deriving DecidableEq, Repr, Inhabited

/-- `scope.ClusterState`: used both for the Current State snapshot and for
the Desired State under construction; every field is a nillable pointer
(or a nillable map), mirroring the Go struct whose fields are filled in
one at a time. -/
structure ClusterState where
  cluster : Option Cluster
  infrastructureCluster : Option Unstructured
  controlPlane : Option ControlPlaneState
  machineDeployments : Option (List (String × MachineDeploymentState))
deriving DecidableEq, Repr, Inhabited

/-- `scope.Scope`: the blueprint and the current state for one pass. -/
structure Scope where
  blueprint : Blueprint
  current : ClusterState
deriving DecidableEq, Repr, Inhabited

/-! ## External collaborators

The compiler delegates structural template generation, unique-name
generation and one contract read to external collaborators (spec section
6); they are modelled as explicit function parameters. -/

/-- `external.GenerateTemplateInput`: the input of the external template
generation collaborator. -/
structure GenerateTemplateInput where
  template : Unstructured
  templateRef : ObjectReference
  ns : String
  labels : SMap
  clusterName : String
deriving DecidableEq, Repr, Inhabited

/-- The external collaborators consumed by the compiler:
`names.SimpleNameGenerator.GenerateName`, `external.GenerateTemplate`,
and the contract read
`contract.ControlPlane().MachineTemplate().InfrastructureRef().Get`
(may fail; modelled from the spec as an abstract fallible read). -/
structure Externals where
  generateName : String → String
  generateTemplate : GenerateTemplateInput → Except String Unstructured
  getControlPlaneInfraRef : Unstructured → Except String (Option ObjectReference)

/-! ## Typed contract accessors (writes)

Modelled from the spec: the typed field accessors of the `contract`
package (not part of the extracted source).  On the modelled object every
well-known path exists by construction, so the writes are total; the
source checks and propagates their errors, which cannot occur here. -/

/-- Modelled from the spec:
`contract.ControlPlane().MachineTemplate().InfrastructureRef().Set(u, obj)` —
writes a reference to `obj` at the machine-template infrastructure-ref
path. -/
def contractSetMachineTemplateInfraRef (u obj : Unstructured) : Unstructured :=
  { u with machineTemplateInfraRef := some (objToRef obj) }

/-- Modelled from the spec:
`contract.ControlPlane().MachineTemplate().Metadata().Set(u, meta)` —
writes the machine-template metadata (labels and annotations). -/
def contractSetMachineTemplateMetadata (u : Unstructured) (meta : ClusterObjectMeta) : Unstructured :=
  { u with machineTemplateLabels := some meta.labels,
           machineTemplateAnnotations := some meta.annotations }

/-- Modelled from the spec: `contract.ControlPlane().Replicas().Set(u, n)`. -/
def contractSetReplicas (u : Unstructured) (n : Int) : Unstructured :=
  { u with replicas := some n }

/-- Modelled from the spec: `contract.ControlPlane().Version().Set(u, v)`. -/
def contractSetVersion (u : Unstructured) (v : String) : Unstructured :=
  { u with version := some v }

/-! ## Role-specific name prefixes

Modelled from the spec: the role-specific name-prefix helpers referenced
by the source (defined elsewhere in the package, not part of the
extracted source); each role gets a distinct prefix built from the
cluster name (and the worker-group instance name where applicable). -/

/-- Modelled from the spec: name prefix for the control-plane
infrastructure-machine template. -/
def controlPlaneInfrastructureMachineTemplateNamePfx (clusterName : String) : String :=
  clusterName ++ "-control-plane-"

/-- Modelled from the spec: name prefix for a worker group's bootstrap
template. -/
def bootstrapTemplateNamePfx (clusterName mdName : String) : String :=
  clusterName ++ "-" ++ mdName ++ "-bootstrap-"

/-- Modelled from the spec: name prefix for a worker group's
infrastructure-machine template. -/
def infrastructureMachineTemplateNamePfx (clusterName mdName : String) : String :=
  clusterName ++ "-" ++ mdName ++ "-infra-"

/-! ## The template cloner -/

/-- `templateToInput`: the shared input of both cloning operations.
The `namePrefix` field is spelled `namePfx` here. -/
structure TemplateToInput where
  template : Unstructured
  templateClonedFromRef : ObjectReference
  cluster : Cluster
  namePfx : String
  currentObjectRef : Option ObjectReference
deriving Repr, Inhabited

/-- `templateToObject`: generates an object from a template via the
external generator, then assigns a meaningful name — the current
reference's name when one with a non-empty name exists, a freshly
generated one from the name prefix otherwise. -/
def templateToObject (ext : Externals) (input : TemplateToInput) : Except String Unstructured :=
  let labels := GoMap.insert (GoMap.insert ([] : SMap) clusterLabelName input.cluster.name)
      clusterTopologyOwnedLabel ("")
  match ext.generateTemplate
      { template := input.template
        templateRef := input.templateClonedFromRef
        ns := input.cluster.ns
        labels := labels
        clusterName := input.cluster.name } with
  | .error e => .error e
  | .ok object0 =>
    let object := object0.setName (ext.generateName input.namePfx)
    let object := match input.currentObjectRef with
      | some ref => if ref.name.length > 0 then object.setName ref.name else object
      | none => object
    .ok object

/-- `templateToTemplate`: deep-copies the input template (value semantics
here), strips the server-assigned bookkeeping fields (resource version,
finalizers, UID, self link), enforces the topology labels, stamps the
cloned-from provenance annotations, and assigns a meaningful name — the
current reference's name when one with a non-empty name exists, a freshly
generated one from the name prefix otherwise. -/
def templateToTemplate (ext : Externals) (input : TemplateToInput) : Unstructured :=
  let template := input.template
  let template := template.setResourceVersion ("")
  let template := template.setFinalizers none
  let template := template.setUID ("")
  let template := template.setSelfLink ("")
  let labels := template.labels.getD []
  let labels := GoMap.insert labels clusterLabelName input.cluster.name
  let labels := GoMap.insert labels clusterTopologyOwnedLabel ("")
  let template := template.setLabels labels
  let anns := template.annotations.getD []
  let anns := GoMap.insert anns templateClonedFromNameKey input.templateClonedFromRef.name
  let anns := GoMap.insert anns templateClonedFromGroupKindKey
      input.templateClonedFromRef.groupKindString
  let template := template.setAnnotations anns
  let template := template.setName (ext.generateName input.namePfx)
  match input.currentObjectRef with
  | some ref => if ref.name.length > 0 then template.setName ref.name else template
  | none => template

/-! ## Component computers -/

/-- `computeInfrastructureCluster`: clones the blueprint's
infrastructure-cluster template into an object; generator errors are
wrapped with the template kind.  (`s.Current.Cluster` is dereferenced
unconditionally in the source; a nil cluster, impossible for a valid
scope, is modelled by the default value.) -/
def computeInfrastructureCluster (ext : Externals) (s : Scope) : Except String Unstructured :=
  let template := s.blueprint.infrastructureClusterTemplate
  let templateClonedFromref := s.blueprint.clusterClass.infrastructureRef
  let cluster := s.current.cluster.getD default
  let currentRef := cluster.infrastructureRef
  match templateToObject ext
      { template := template
        templateClonedFromRef := templateClonedFromref
        cluster := cluster
        namePfx := cluster.name ++ "-"
        currentObjectRef := currentRef } with
  | .error e =>
    .error ("failed to generate the InfrastructureCluster object from the "
      ++ template.kind ++ ": " ++ e)
  | .ok infrastructureCluster => .ok infrastructureCluster

/-- `computeControlPlaneInfrastructureMachineTemplate`: resolves the
current control plane's machine-template infrastructure reference through
the contract read (wrapping a failure), then clones the blueprint's
control-plane infrastructure-machine template as a template.  The
blueprint fields dereferenced unconditionally by the source (non-nil
whenever this computer runs) are defaulted when absent. -/
def computeControlPlaneInfrastructureMachineTemplate (ext : Externals) (s : Scope) :
    Except String Unstructured :=
  let template := s.blueprint.controlPlane.infrastructureMachineTemplate.getD default
  let templateClonedFromRef :=
    s.blueprint.clusterClass.controlPlaneMachineInfrastructureRef.getD default
  let cluster := s.current.cluster.getD default
  let currentRefRead : Except String (Option ObjectReference) :=
    match s.current.controlPlane with
    | some cps =>
      match cps.object with
      | some obj => ext.getControlPlaneInfraRef obj
      | none => .ok none
    | none => .ok none
  match currentRefRead with
  | .error e =>
    .error ("failed to get spec.machineTemplate.infrastructureRef for the current ControlPlane object: " ++ e)
  | .ok currentRef =>
    .ok (templateToTemplate ext
      { template := template
        templateClonedFromRef := templateClonedFromRef
        cluster := cluster
        namePfx := controlPlaneInfrastructureMachineTemplateNamePfx cluster.name
        currentObjectRef := currentRef })

/-- The `templateToInput` record built inside `computeControlPlane` for
the control-plane template (factored out so that theorems can refer to
the intermediate generated object). -/
def controlPlaneTemplateInput (s : Scope) : TemplateToInput :=
  let cluster := s.current.cluster.getD default
  { template := s.blueprint.controlPlane.template
    templateClonedFromRef := s.blueprint.clusterClass.controlPlaneRef
    cluster := cluster
    namePfx := cluster.name ++ "-"
    currentObjectRef := cluster.controlPlaneRef }

/-- `computeControlPlane`: clones the blueprint's control-plane template
into an object; when the blueprint mandates control-plane infrastructure
machines, points the machine-template infrastructure reference at the
given template and writes the merged machine-template metadata (topology
over class, with the topology labels forced in); writes the replica count
only when the topology specifies one; always writes the version. -/
def computeControlPlane (ext : Externals) (s : Scope)
    (infrastructureMachineTemplate : Option Unstructured) : Except String Unstructured :=
  let template := s.blueprint.controlPlane.template
  let cluster := s.current.cluster.getD default
  match templateToObject ext (controlPlaneTemplateInput s) with
  | .error e =>
    .error ("failed to generate the ControlPlane object from the "
      ++ template.kind ++ ": " ++ e)
  | .ok controlPlane0 =>
    let controlPlane :=
      if hasControlPlaneInfrastructureMachine s.blueprint then
        let cp1 := contractSetMachineTemplateInfraRef controlPlane0
          (infrastructureMachineTemplate.getD default)
        let topologyMetadata := s.blueprint.topology.controlPlane.metadata
        let clusterClassMetadata := s.blueprint.clusterClass.controlPlaneMetadata
        let machineLabels := mergeMap topologyMetadata.labels clusterClassMetadata.labels
        let machineLabels := GoMap.insert machineLabels clusterLabelName cluster.name
        let machineLabels := GoMap.insert machineLabels clusterTopologyOwnedLabel ("")
        contractSetMachineTemplateMetadata cp1
          { labels := machineLabels,
            annotations := mergeMap topologyMetadata.annotations clusterClassMetadata.annotations }
      else controlPlane0
    let controlPlane :=
      match s.blueprint.topology.controlPlane.replicas with
      | some n => contractSetReplicas controlPlane n
      | none => controlPlane
    let controlPlane := contractSetVersion controlPlane s.blueprint.topology.version
    .ok controlPlane

/-- `computeCluster`: deep-copies the current cluster (value semantics
here), enforces the topology labels, and points the spec references at
the freshly computed infrastructure-cluster and control-plane objects. -/
def computeCluster (s : Scope) (infrastructureCluster controlPlane : Unstructured) : Cluster :=
  let cluster := s.current.cluster.getD default
  let labels := cluster.labels.getD []
  let labels := GoMap.insert labels clusterLabelName cluster.name
  let labels := GoMap.insert labels clusterTopologyOwnedLabel ("")
  { cluster with
    labels := some labels
    infrastructureRef := some (objToRef infrastructureCluster)
    controlPlaneRef := some (objToRef controlPlane) }

/-- `computeMachineDeployment`: resolves the entry's class against the
blueprint (error when absent), clones the class's bootstrap and
infrastructure-machine templates (stamping the worker-group label on
each), and constructs the machine-deployment object referencing both,
with the topology labels at the object and embedded-template level, the
uniform version, the topology replica count, and the current object's
name when a current machine deployment with an object exists.
(The source reads `currentMachineDeployment.Object` unconditionally when
resolving the current bootstrap reference; a nil object there, which
would crash the source, is modelled by the default value.) -/
def computeMachineDeployment (ext : Externals) (s : Scope)
    (machineDeploymentTopology : MachineDeploymentTopology) :
    Except String MachineDeploymentState :=
  let className := machineDeploymentTopology.clsName
  match GoMap.find s.blueprint.machineDeployments className with
  | none =>
    .error ("MachineDeployment blueprint " ++ className ++ " not found in ClusterClass "
      ++ s.blueprint.clusterClass.name)
  | some machineDeploymentBlueprint =>
    let cluster := s.current.cluster.getD default
    let currentMachineDeployment :=
      GoMap.find (s.current.machineDeployments.getD []) machineDeploymentTopology.name
    let currentBootstrapTemplateRef : Option ObjectReference :=
      match currentMachineDeployment with
      | some cmd =>
        if cmd.bootstrapTemplate.isSome then
          (cmd.object.getD default).spec.template.spec.bootstrap.configRef
        else none
      | none => none
    let bootstrapTemplate := templateToTemplate ext
      { template := machineDeploymentBlueprint.bootstrapTemplate,
        templateClonedFromRef := objToRef machineDeploymentBlueprint.bootstrapTemplate,
        cluster := cluster,
        namePfx := bootstrapTemplateNamePfx cluster.name machineDeploymentTopology.name,
        currentObjectRef := currentBootstrapTemplateRef }
    let btLabels := bootstrapTemplate.labels.getD []
    let btLabels := GoMap.insert btLabels clusterTopologyMachineDeploymentLabelName
      machineDeploymentTopology.name
    let bootstrapTemplate := bootstrapTemplate.setLabels btLabels
    let currentInfraMachineTemplateRef : Option ObjectReference :=
      match currentMachineDeployment with
      | some cmd =>
        if cmd.infrastructureMachineTemplate.isSome then
          some (cmd.object.getD default).spec.template.spec.infrastructureRef
        else none
      | none => none
    let infrastructureMachineTemplate := templateToTemplate ext
      { template := machineDeploymentBlueprint.infrastructureMachineTemplate,
        templateClonedFromRef := objToRef machineDeploymentBlueprint.infrastructureMachineTemplate,
        cluster := cluster,
        namePfx := infrastructureMachineTemplateNamePfx cluster.name machineDeploymentTopology.name,
        currentObjectRef := currentInfraMachineTemplateRef }
    let imtLabels := infrastructureMachineTemplate.labels.getD []
    let imtLabels := GoMap.insert imtLabels clusterTopologyMachineDeploymentLabelName
      machineDeploymentTopology.name
    let infrastructureMachineTemplate := infrastructureMachineTemplate.setLabels imtLabels
    let desiredMachineDeploymentObj : MachineDeployment :=
      { kind := "MachineDeployment"
        apiVersion := clusterAPIVersion
        name := ext.generateName (cluster.name ++ "-" ++ machineDeploymentTopology.name ++ "-")
        ns := cluster.ns
        labels := none
        spec :=
          { clusterName := cluster.name
            replicas := none
            template :=
              { labels := mergeMap machineDeploymentTopology.metadata.labels
                  machineDeploymentBlueprint.metadata.labels
                annotations := mergeMap machineDeploymentTopology.metadata.annotations
                  machineDeploymentBlueprint.metadata.annotations
                spec :=
                  { clusterName := cluster.name
                    version := some s.blueprint.topology.version
                    bootstrap := { configRef := some (objToRef bootstrapTemplate) }
                    infrastructureRef := objToRef infrastructureMachineTemplate } } } }
    let desiredMachineDeploymentObj :=
      match currentMachineDeployment with
      | some cmd =>
        match cmd.object with
        | some o => desiredMachineDeploymentObj.setName o.name
        | none => desiredMachineDeploymentObj
      | none => desiredMachineDeploymentObj
    let objLabels := GoMap.insert (GoMap.insert (GoMap.insert ([] : SMap)
      clusterLabelName cluster.name) clusterTopologyOwnedLabel (""))
      clusterTopologyMachineDeploymentLabelName machineDeploymentTopology.name
    let desiredMachineDeploymentObj := desiredMachineDeploymentObj.setLabels objLabels
    let tmplLabels := desiredMachineDeploymentObj.spec.template.labels
    let tmplLabels := GoMap.insert tmplLabels clusterLabelName cluster.name
    let tmplLabels := GoMap.insert tmplLabels clusterTopologyOwnedLabel ("")
    let tmplLabels := GoMap.insert tmplLabels clusterTopologyMachineDeploymentLabelName
      machineDeploymentTopology.name
    let desiredMachineDeploymentObj :=
      { desiredMachineDeploymentObj with
        spec := { desiredMachineDeploymentObj.spec with
          template := { desiredMachineDeploymentObj.spec.template with labels := tmplLabels } } }
    let desiredMachineDeploymentObj :=
      { desiredMachineDeploymentObj with
        spec := { desiredMachineDeploymentObj.spec with
          replicas := machineDeploymentTopology.replicas } }
    .ok { object := some desiredMachineDeploymentObj,
          bootstrapTemplate := some bootstrapTemplate,
          infrastructureMachineTemplate := some infrastructureMachineTemplate }

/-- The worker loop of `computeDesiredState`: computes one machine
deployment per topology entry, inserting each result under the entry's
instance name, returning on the first error. -/
def computeMachineDeployments (ext : Externals) (s : Scope) :
    List MachineDeploymentTopology → List (String × MachineDeploymentState) →
    Except String (List (String × MachineDeploymentState))
  | [], m => .ok m
  | mdTopology :: rest, m =>
    match computeMachineDeployment ext s mdTopology with
    | .error e => .error e
    | .ok d => computeMachineDeployments ext s rest (GoMap.insert m mdTopology.name d)

/-- `computeDesiredState`: the orchestrator — infrastructure cluster,
then (conditionally) the control-plane infrastructure-machine template,
then the control plane, then the cluster object, then one machine
deployment per worker entry; any error aborts the whole pass with no
desired state. -/
def computeDesiredState (ext : Externals) (s : Scope) : Except String ClusterState :=
  match computeInfrastructureCluster ext s with
  | .error e => .error e
  | .ok infrastructureCluster =>
    match (if hasControlPlaneInfrastructureMachine s.blueprint then
        (computeControlPlaneInfrastructureMachineTemplate ext s).map some
      else .ok none) with
    | .error e => .error e
    | .ok infrastructureMachineTemplate =>
      match computeControlPlane ext s infrastructureMachineTemplate with
      | .error e => .error e
      | .ok controlPlaneObject =>
        let cluster := computeCluster s infrastructureCluster controlPlaneObject
        let desiredState : ClusterState :=
          { cluster := some cluster
            infrastructureCluster := some infrastructureCluster
            controlPlane := some
              { object := some controlPlaneObject
                infrastructureMachineTemplate := infrastructureMachineTemplate }
            machineDeployments := none }
        if hasMachineDeployments s.blueprint then
          match computeMachineDeployments ext s s.blueprint.topology.workers [] with
          | .error e => .error e
          | .ok mds => .ok { desiredState with machineDeployments := some mds }
        else .ok desiredState

/-! ## Statement-level definitions -/

/-- The name-reuse-or-generate rule of the spec: reuse the current
reference's name when one with a non-empty name exists, otherwise a fresh
name generated from the role-specific name prefix. -/
def nameAfterReuse (ext : Externals) (input : TemplateToInput) : String :=
  match input.currentObjectRef with
  | some ref => if ref.name.length > 0 then ref.name else ext.generateName input.namePfx
  | none => ext.generateName input.namePfx

/-- A desired state is fully populated (relative to its blueprint): the
cluster, infrastructure cluster and control-plane object are all present,
the control-plane infrastructure-machine template is present whenever the
blueprint mandates it, and the machine-deployment map is present whenever
the blueprint lists worker entries. -/
def fullyPopulated (b : Blueprint) (ds : ClusterState) : Prop :=
  ds.cluster.isSome = true ∧ ds.infrastructureCluster.isSome = true
  ∧ (∃ cp, ds.controlPlane = some cp ∧ cp.object.isSome = true
      ∧ (hasControlPlaneInfrastructureMachine b = true →
          cp.infrastructureMachineTemplate.isSome = true))
  ∧ (hasMachineDeployments b = true → ds.machineDeployments.isSome = true)

/-! ## Concrete fixtures (used by witnesses and counterexamples) -/

/-- A concrete source template with non-empty server-assigned fields. -/
def exTemplate : Unstructured :=
  { apiVersion := "infrastructure.cluster.x-k8s.io/v1alpha4"
    kind := "FooTemplate"
    name := "tmpl1"
    ns := "default"
    labels := none
    annotations := none
    resourceVersion := "42"
    uid := "abc"
    finalizers := some ["f1"]
    selfLink := "sl"
    machineTemplateInfraRef := none
    machineTemplateLabels := none
    machineTemplateAnnotations := none
    replicas := some 7
    version := none }

/-- A concrete cloned-from reference. -/
def exRef : ObjectReference :=
  { kind := "FooTemplate"
    apiVersion := "infrastructure.cluster.x-k8s.io/v1alpha4"
    name := "t1"
    ns := "default" }

/-- A concrete current cluster. -/
def exCluster : Cluster :=
  { name := "clu", ns := "default", labels := none
    infrastructureRef := none, controlPlaneRef := none }

/-- A concrete cluster class (no control-plane machine infrastructure). -/
def exClusterClass : ClusterClass :=
  { name := "cc"
    infrastructureRef := exRef
    controlPlaneRef := exRef
    controlPlaneMachineInfrastructureRef := none
    controlPlaneMetadata := { labels := [], annotations := [] } }

/-- A concrete machine-deployment class blueprint. -/
def exMDBlueprint : MachineDeploymentBlueprint :=
  { metadata := { labels := [], annotations := [] }
    bootstrapTemplate := exTemplate
    infrastructureMachineTemplate := exTemplate }

/-- A concrete worker entry of class `cls` named `nm`. -/
def exMDT (cls nm : String) : MachineDeploymentTopology :=
  { metadata := { labels := [], annotations := [] }
    clsName := cls, name := nm, replicas := some 3 }

/-- A concrete blueprint whose machine-deployment class map holds the
single class `default`, with the given worker entries and control-plane
replica intent. -/
def exBlueprint (cpReplicas : Option Int) (ws : List MachineDeploymentTopology) : Blueprint :=
  { clusterClass := exClusterClass
    topology :=
      { version := "v1.21.2"
        controlPlane := { metadata := { labels := [], annotations := [] }, replicas := cpReplicas }
        workers := ws }
    infrastructureClusterTemplate := exTemplate
    controlPlane := { template := exTemplate, infrastructureMachineTemplate := none }
    machineDeployments := [("default", exMDBlueprint)] }

/-- A concrete scope with an empty current state. -/
def exScope (cpReplicas : Option Int) (ws : List MachineDeploymentTopology) : Scope :=
  { blueprint := exBlueprint cpReplicas ws
    current :=
      { cluster := some exCluster, infrastructureCluster := none
        controlPlane := none, machineDeployments := none } }

/-- Concrete external collaborators: a deterministic name generator and a
template generator that succeeds structurally. -/
def exGen : Externals :=
  { generateName := fun p => p ++ "abcde"
    generateTemplate := fun gin => .ok { gin.template with ns := gin.ns, labels := some gin.labels }
    getControlPlaneInfraRef := fun _ => .ok none }

/-- Concrete external collaborators whose template generator always
fails. -/
def exGenFail : Externals :=
  { exGen with generateTemplate := fun _ => .error "boom" }

/-- A concrete cloning input with no current reference. -/
def exInput : TemplateToInput :=
  { template := exTemplate, templateClonedFromRef := exRef, cluster := exCluster
    namePfx := "clu-", currentObjectRef := none }

/-- A concrete current machine-deployment object carrying an empty name. -/
def cexMDObject : MachineDeployment :=
  { kind := "MachineDeployment", apiVersion := clusterAPIVersion
    name := "", ns := "default", labels := none
    spec :=
      { clusterName := "clu", replicas := none
        template :=
          { labels := [], annotations := []
            spec :=
              { clusterName := "clu", version := none
                bootstrap := { configRef := none }
                infrastructureRef := exRef } } } }

/-- A concrete scope whose current state holds a machine deployment named
`wg` whose object exists but carries an empty name. -/
def cexScope : Scope :=
  { blueprint := exBlueprint none [exMDT ("default") ("wg")]
    current :=
      { cluster := some exCluster, infrastructureCluster := none, controlPlane := none
        machineDeployments := some
          [("wg", { object := some cexMDObject, bootstrapTemplate := none
                    infrastructureMachineTemplate := none })] } }

/-- The value of a successful computation (its default otherwise); used
to name concrete computed values in witnesses. -/
def exceptOk {α : Type} (r : Except String α) (d0 : α) : α :=
  match r with
  | .ok a => a
  | .error _ => d0

/-- A concrete worker entry of the class `default` named `wg`. -/
def exMDT1 : MachineDeploymentTopology := exMDT ("default") ("wg")

/-- A concrete scope with one worker entry and an empty current state. -/
def exScope1 : Scope := exScope (some 3) [exMDT1]

/-- The machine-deployment state computed for the concrete scope. -/
def exComputedMD : MachineDeploymentState :=
  exceptOk (computeMachineDeployment exGen exScope1 exMDT1) default

/-- A concrete scope with two worker entries named `wg-a` and `wg-b`. -/
def exScopeAB : Scope :=
  exScope (some 3) [exMDT ("default") ("wg-a"), exMDT ("default") ("wg-b")]

/-- The desired state computed for the two-entry scope. -/
def exComputedDS : ClusterState :=
  exceptOk (computeDesiredState exGen exScopeAB) default

/-- A concrete scope with one valid worker entry and one whose class is
absent from the blueprint. -/
def exScope5 : Scope :=
  exScope (some 3) [exMDT ("default") ("wg1"), exMDT ("missing") ("wg2")]

/-- The control plane computed when the topology specifies replicas. -/
def exCPsome : Unstructured :=
  exceptOk (computeControlPlane exGen (exScope (some 3) []) none) default

/-- The control plane computed when the topology leaves replicas unset. -/
def exCPnone : Unstructured :=
  exceptOk (computeControlPlane exGen (exScope none []) none) default

/-- The intermediate generated control-plane object for the
replicas-unset scope. -/
def exObjCP : Unstructured :=
  exceptOk (templateToObject exGen (controlPlaneTemplateInput (exScope none []))) default

/-- A concrete cloning input whose current reference carries the
non-empty name `cur`. -/
def exInputCur : TemplateToInput :=
  { exInput with currentObjectRef := some { exRef with name := "cur" } }

/-- The object cloned from `exInputCur`. -/
def exObjCur : Unstructured :=
  exceptOk (templateToObject exGen exInputCur) default

/-- The machine-deployment state computed for the empty-name
counterexample scope. -/
def cexComputed : MachineDeploymentState :=
  exceptOk (computeMachineDeployment exGen cexScope exMDT1) default

/-! ## Lemmas about the Go-map model -/

namespace GoMap

theorem find_insert_self {α : Type} (m : List (String × α)) (k : String) (v : α) :
    find (insert m k v) k = some v := by
  induction m with
  | nil => simp [insert, find]
  | cons hd t ih =>
    obtain ⟨k0, v0⟩ := hd
    by_cases h : k0 = k
    · simp [insert, find, h]
    · simp [insert, find, h, ih]

theorem find_insert_ne {α : Type} (m : List (String × α)) {k k' : String} (v : α)
    (h : k ≠ k') : find (insert m k v) k' = find m k' := by
  induction m with
  | nil => simp [insert, find, h]
  | cons hd t ih =>
    obtain ⟨k0, v0⟩ := hd
    by_cases h0 : k0 = k
    · subst h0
      simp [insert, find, h]
    · simp only [insert, if_neg h0]
      by_cases h1 : k0 = k'
      · simp [find, h1]
      · simp [find, h1, ih]

theorem mem_keys_insert {α : Type} (m : List (String × α)) (k k' : String) (v : α) :
    k' ∈ keys (insert m k v) ↔ k' ∈ keys m ∨ k' = k := by
  induction m with
  | nil => simp [insert, keys]
  | cons hd t ih =>
    obtain ⟨k0, v0⟩ := hd
    by_cases h : k0 = k
    · subst h
      simp [insert, keys]
      tauto
    · simp [insert, keys, h] at ih ⊢
      tauto

theorem find_eq_none_of_not_mem_keys {α : Type} {m : List (String × α)} {k : String}
    (h : k ∉ keys m) : find m k = none := by
  induction m with
  | nil => rfl
  | cons hd t ih =>
    obtain ⟨k0, v0⟩ := hd
    simp only [keys, List.map_cons, List.mem_cons, not_or] at h
    have hne : k0 ≠ k := fun he => h.1 he.symm
    simp only [find, if_neg hne]
    exact ih (by simpa [keys] using h.2)

theorem find_insertAll_of_nodup {α : Type} (l : List (String × α)) :
    (keys l).Nodup → ∀ (m : List (String × α)) (k : String),
      find (insertAll m l) k = (find l k).orElse (fun _ => find m k) := by
  induction l with
  | nil =>
    intro _ m k
    simp [insertAll, find, Option.orElse]
  | cons hd t ih =>
    intro hnd m k
    obtain ⟨k0, v0⟩ := hd
    simp only [keys, List.map_cons, List.nodup_cons] at hnd
    have hstep : insertAll m ((k0, v0) :: t) = insertAll (insert m k0 v0) t := rfl
    rw [hstep, ih hnd.2 (insert m k0 v0) k]
    by_cases h : k0 = k
    · subst h
      have ht : find t k0 = none := find_eq_none_of_not_mem_keys (by simpa [keys] using hnd.1)
      simp [find, ht, Option.orElse, find_insert_self]
    · simp [find, h, Option.orElse, find_insert_ne m v0 h]

end GoMap

/-! ## Lemmas about the worker loop -/

theorem computeMachineDeployments_ok_keys (ext : Externals) (s : Scope) :
    ∀ (l : List MachineDeploymentTopology) (m res : List (String × MachineDeploymentState)),
      computeMachineDeployments ext s l m = .ok res →
      ∀ k, k ∈ GoMap.keys res ↔ k ∈ GoMap.keys m ∨ k ∈ l.map MachineDeploymentTopology.name := by
  intro l
  induction l with
  | nil =>
    intro m res h k
    simp only [computeMachineDeployments, Except.ok.injEq] at h
    subst h
    simp
  | cons hd t ih =>
    intro m res h k
    simp only [computeMachineDeployments] at h
    cases hc : computeMachineDeployment ext s hd with
    | error e =>
      rw [hc] at h
      exact absurd h (by simp)
    | ok d =>
      rw [hc] at h
      rw [ih (GoMap.insert m hd.name d) res h k, GoMap.mem_keys_insert]
      simp only [List.map_cons, List.mem_cons]
      tauto

theorem computeMachineDeployments_mem_error (ext : Externals) (s : Scope) :
    ∀ (l : List MachineDeploymentTopology) (m : List (String × MachineDeploymentState))
      (mdt : MachineDeploymentTopology) (e : String), mdt ∈ l →
      computeMachineDeployment ext s mdt = .error e →
      ∃ e', computeMachineDeployments ext s l m = .error e' := by
  intro l
  induction l with
  | nil =>
    intro m mdt e h _
    exact absurd h (List.not_mem_nil mdt)
  | cons hd t ih =>
    intro m mdt e hmem he
    simp only [computeMachineDeployments]
    cases hc : computeMachineDeployment ext s hd with
    | error e0 => exact ⟨e0, rfl⟩
    | ok d =>
      rcases List.mem_cons.mp hmem with h1 | h1
      · subst h1
        rw [hc] at he
        exact absurd he (by simp)
      · exact ih (GoMap.insert m hd.name d) mdt e h1 he

/-! ## Lemmas about the template cloner -/

theorem templateToTemplate_eq (ext : Externals) (input : TemplateToInput) :
    templateToTemplate ext input =
      { input.template with
        resourceVersion := ""
        uid := ""
        finalizers := none
        selfLink := ""
        name := nameAfterReuse ext input
        labels := some (GoMap.insert
          (GoMap.insert (input.template.labels.getD []) clusterLabelName input.cluster.name)
          clusterTopologyOwnedLabel (""))
        annotations := some (GoMap.insert
          (GoMap.insert (input.template.annotations.getD [])
            templateClonedFromNameKey input.templateClonedFromRef.name)
          templateClonedFromGroupKindKey input.templateClonedFromRef.groupKindString) } := by
  cases hcur : input.currentObjectRef with
  | none =>
    simp [templateToTemplate, nameAfterReuse, hcur, Unstructured.setName,
      Unstructured.setResourceVersion, Unstructured.setUID, Unstructured.setSelfLink,
      Unstructured.setFinalizers, Unstructured.setLabels, Unstructured.setAnnotations]
  | some ref =>
    by_cases h : ref.name.length > 0 <;>
      simp [templateToTemplate, nameAfterReuse, hcur, h, Unstructured.setName,
        Unstructured.setResourceVersion, Unstructured.setUID, Unstructured.setSelfLink,
        Unstructured.setFinalizers, Unstructured.setLabels, Unstructured.setAnnotations]

theorem templateToObject_name (ext : Externals) (input : TemplateToInput)
    (obj : Unstructured) (h : templateToObject ext input = .ok obj) :
    obj.name = nameAfterReuse ext input := by
  simp only [templateToObject] at h
  split at h
  · exact absurd h (by simp)
  · cases hcur : input.currentObjectRef with
    | none =>
      rw [hcur] at h
      simp only [Except.ok.injEq] at h
      subst h
      simp [nameAfterReuse, hcur, Unstructured.setName]
    | some ref =>
      rw [hcur] at h
      by_cases hn : ref.name.length > 0 <;>
        · simp only [hn, if_true, if_false, Except.ok.injEq] at h
          subst h
          simp [nameAfterReuse, hcur, hn, Unstructured.setName]

/-! ## Shape lemmas for the component computers -/

theorem computeMachineDeployment_ok_shape (ext : Externals) (s : Scope)
    (mdt : MachineDeploymentTopology) (d : MachineDeploymentState)
    (h : computeMachineDeployment ext s mdt = .ok d) :
    ∃ o bt imt, d.object = some o ∧ d.bootstrapTemplate = some bt
      ∧ d.infrastructureMachineTemplate = some imt
      ∧ o.labels = some (GoMap.insert (GoMap.insert (GoMap.insert ([] : SMap)
          clusterLabelName (s.current.cluster.getD default).name)
          clusterTopologyOwnedLabel (""))
          clusterTopologyMachineDeploymentLabelName mdt.name)
      ∧ o.name = (match GoMap.find (s.current.machineDeployments.getD []) mdt.name with
          | some cmd => (match cmd.object with
            | some co => co.name
            | none => ext.generateName
                ((s.current.cluster.getD default).name ++ "-" ++ mdt.name ++ "-"))
          | none => ext.generateName
              ((s.current.cluster.getD default).name ++ "-" ++ mdt.name ++ "-"))
      ∧ GoMap.find (bt.labels.getD []) clusterLabelName
          = some (s.current.cluster.getD default).name
      ∧ GoMap.find (bt.labels.getD []) clusterTopologyOwnedLabel = some ("")
      ∧ GoMap.find (imt.labels.getD []) clusterLabelName
          = some (s.current.cluster.getD default).name
      ∧ GoMap.find (imt.labels.getD []) clusterTopologyOwnedLabel = some ("") := by
  simp only [computeMachineDeployment] at h
  cases hbp : GoMap.find s.blueprint.machineDeployments mdt.clsName with
  | none =>
    rw [hbp] at h
    exact Except.noConfusion h
  | some bp =>
    rw [hbp] at h
    simp only [Except.ok.injEq] at h
    subst h
    cases hcmd : GoMap.find (s.current.machineDeployments.getD []) mdt.name with
    | none =>
      dsimp only
      refine ⟨_, _, _, rfl, rfl, rfl, rfl, rfl, ?_, ?_, ?_, ?_⟩ <;>
        · simp only [Unstructured.setLabels, templateToTemplate_eq, Option.getD_some]
          first
          | rw [GoMap.find_insert_ne _ _ (by decide), GoMap.find_insert_ne _ _ (by decide),
              GoMap.find_insert_self]
          | rw [GoMap.find_insert_ne _ _ (by decide), GoMap.find_insert_self]
    | some cmd =>
      dsimp only
      cases hco : cmd.object with
      | none =>
        dsimp only
        refine ⟨_, _, _, rfl, rfl, rfl, rfl, rfl, ?_, ?_, ?_, ?_⟩ <;>
          · simp only [Unstructured.setLabels, templateToTemplate_eq, Option.getD_some]
            first
            | rw [GoMap.find_insert_ne _ _ (by decide), GoMap.find_insert_ne _ _ (by decide),
                GoMap.find_insert_self]
            | rw [GoMap.find_insert_ne _ _ (by decide), GoMap.find_insert_self]
      | some co =>
        dsimp only
        refine ⟨_, _, _, rfl, rfl, rfl, rfl, rfl, ?_, ?_, ?_, ?_⟩ <;>
          · simp only [Unstructured.setLabels, templateToTemplate_eq, Option.getD_some]
            first
            | rw [GoMap.find_insert_ne _ _ (by decide), GoMap.find_insert_ne _ _ (by decide),
                GoMap.find_insert_self]
            | rw [GoMap.find_insert_ne _ _ (by decide), GoMap.find_insert_self]

theorem computeDesiredState_error_of_md_error (ext : Externals) (s : Scope)
    (mdt : MachineDeploymentTopology) (e : String)
    (hmem : mdt ∈ s.blueprint.topology.workers)
    (herr : computeMachineDeployment ext s mdt = .error e) :
    ∃ e', computeDesiredState ext s = .error e' := by
  have hmd : hasMachineDeployments s.blueprint = true := by
    unfold hasMachineDeployments
    cases hw : s.blueprint.topology.workers with
    | nil =>
      rw [hw] at hmem
      cases hmem
    | cons a t => rfl
  obtain ⟨e', hl⟩ := computeMachineDeployments_mem_error ext s
    s.blueprint.topology.workers [] mdt e hmem herr
  cases hic : computeInfrastructureCluster ext s with
  | error e0 =>
    exact ⟨e0, by unfold computeDesiredState; rw [hic]⟩
  | ok ic =>
    cases hq : (if hasControlPlaneInfrastructureMachine s.blueprint then
        (computeControlPlaneInfrastructureMachineTemplate ext s).map some
      else .ok none) with
    | error e1 =>
      exact ⟨e1, by unfold computeDesiredState; rw [hic, hq]⟩
    | ok imt =>
      cases hcp : computeControlPlane ext s imt with
      | error e2 =>
        exact ⟨e2, by unfold computeDesiredState; rw [hic, hq]; dsimp only; rw [hcp]⟩
      | ok cpo =>
        refine ⟨e', ?_⟩
        unfold computeDesiredState
        rw [hic, hq]
        dsimp only
        rw [hcp]
        dsimp only
        rw [if_pos hmd, hl]

/-! ## Claims -/

/-- Claim C6: for all string maps primary and secondary,
`mergeMap primary secondary` is the union of the two maps in which every
key present in both takes primary's value and every key present only in
secondary keeps secondary's value; in particular
`mergeMap {a:1} {a:2, b:3} = {a:1, b:3}` (braces here denote map
literals).  The operation is total (it is a function into `SMap`, so it
cannot error). -/
theorem mergeMap_union_primary_wins :
    (∀ (a b : SMap), (GoMap.keys a).Nodup → (GoMap.keys b).Nodup → ∀ k,
      GoMap.find (mergeMap a b) k = (GoMap.find a k).orElse (fun _ => GoMap.find b k))
    ∧ mergeMap [("a", "1")] [("a", "2"), ("b", "3")] = [("a", "1"), ("b", "3")] := by
  constructor
  · intro a b ha hb k
    unfold mergeMap
    rw [GoMap.find_insertAll_of_nodup a ha (GoMap.insertAll [] b) k,
        GoMap.find_insertAll_of_nodup b hb [] k]
    cases GoMap.find a k <;> cases GoMap.find b k <;> simp [Option.orElse, GoMap.find]
  · decide

/-- Witness for claim C6 at concrete maps and key. -/
theorem mergeMap_union_primary_wins_witness :
    GoMap.find (mergeMap [("a", "1")] [("a", "2"), ("b", "3")]) ("a")
      = (GoMap.find [("a", "1")] ("a")).orElse
          (fun _ => GoMap.find [("a", "2"), ("b", "3")] ("a")) :=
  mergeMap_union_primary_wins.1 [("a", "1")] [("a", "2"), ("b", "3")]
    (by decide) (by decide) ("a")

/-- Claim C7: for every input template, the template returned by
`templateToTemplate` has its resource version, UID and finalizers all
cleared, regardless of the values carried by the source (the source
itself is a value here, hence never modified). -/
theorem templateToTemplate_strips_server_fields (ext : Externals) (input : TemplateToInput) :
    (templateToTemplate ext input).resourceVersion = ""
    ∧ (templateToTemplate ext input).uid = ""
    ∧ (templateToTemplate ext input).finalizers = none := by
  rw [templateToTemplate_eq]
  exact ⟨rfl, rfl, rfl⟩

/-- Claim C10: `templateToTemplate` also clears the self-link field of
every cloned template. -/
theorem templateToTemplate_clears_selfLink (ext : Externals) (input : TemplateToInput) :
    (templateToTemplate ext input).selfLink = "" := by
  rw [templateToTemplate_eq]

/-- Claim C8: the template returned by `templateToTemplate` carries the
provenance annotations — cloned-from-name mapped to the reference's name
and cloned-from-group-kind mapped to the reference's group-kind string
(kind dot group) — and, for a source template with no annotations of its
own, these two entries are exactly its annotation map. -/
theorem templateToTemplate_provenance (ext : Externals) (input : TemplateToInput) :
    GoMap.find ((templateToTemplate ext input).annotations.getD []) templateClonedFromNameKey
      = some input.templateClonedFromRef.name
    ∧ GoMap.find ((templateToTemplate ext input).annotations.getD []) templateClonedFromGroupKindKey
      = some input.templateClonedFromRef.groupKindString
    ∧ (input.template.annotations = none →
        (templateToTemplate ext input).annotations
          = some [(templateClonedFromNameKey, input.templateClonedFromRef.name),
                  (templateClonedFromGroupKindKey, input.templateClonedFromRef.groupKindString)]) := by
  simp only [templateToTemplate_eq, Option.getD_some]
  refine ⟨?_, ?_, ?_⟩
  · rw [GoMap.find_insert_ne _ _ (by decide), GoMap.find_insert_self]
  · rw [GoMap.find_insert_self]
  · intro h
    rw [h]
    rfl

/-- Witness for claim C8: on a concrete annotation-free source template
and the reference named t1 of kind FooTemplate, the cloned template's
annotations are exactly the two provenance entries. -/
theorem templateToTemplate_provenance_witness :
    (templateToTemplate exGen exInput).annotations
      = some [(templateClonedFromNameKey, "t1"),
              (templateClonedFromGroupKindKey, "FooTemplate.infrastructure.cluster.x-k8s.io")] := by
  rw [(templateToTemplate_provenance exGen exInput).2.2 rfl]
  rfl

/-- Claim C3: every object computed by a successful pass — cloned
templates (`templateToTemplate`), the cluster object (`computeCluster`),
and machine-deployment objects with their cloned bootstrap and
infrastructure-machine templates (`computeMachineDeployment`) — carries
the cluster-identity label valued with the cluster's name and the
topology-ownership label valued with the empty string. -/
theorem computed_objects_carry_topology_labels (ext : Externals) (s : Scope)
    (input : TemplateToInput) (ic cp : Unstructured) (mdt : MachineDeploymentTopology) :
    (GoMap.find ((templateToTemplate ext input).labels.getD []) clusterLabelName
        = some input.cluster.name
      ∧ GoMap.find ((templateToTemplate ext input).labels.getD []) clusterTopologyOwnedLabel
        = some (""))
    ∧ (GoMap.find ((computeCluster s ic cp).labels.getD []) clusterLabelName
        = some (computeCluster s ic cp).name
      ∧ GoMap.find ((computeCluster s ic cp).labels.getD []) clusterTopologyOwnedLabel
        = some (""))
    ∧ (∀ d, computeMachineDeployment ext s mdt = .ok d →
        (∀ o, d.object = some o →
          GoMap.find (o.labels.getD []) clusterLabelName
              = some (s.current.cluster.getD default).name
            ∧ GoMap.find (o.labels.getD []) clusterTopologyOwnedLabel = some (""))
        ∧ (∀ bt, d.bootstrapTemplate = some bt →
          GoMap.find (bt.labels.getD []) clusterLabelName
              = some (s.current.cluster.getD default).name
            ∧ GoMap.find (bt.labels.getD []) clusterTopologyOwnedLabel = some (""))
        ∧ (∀ imt, d.infrastructureMachineTemplate = some imt →
          GoMap.find (imt.labels.getD []) clusterLabelName
              = some (s.current.cluster.getD default).name
            ∧ GoMap.find (imt.labels.getD []) clusterTopologyOwnedLabel = some (""))) := by
  refine ⟨⟨?_, ?_⟩, ⟨?_, ?_⟩, ?_⟩
  · simp only [templateToTemplate_eq, Option.getD_some]
    rw [GoMap.find_insert_ne _ _ (by decide), GoMap.find_insert_self]
  · simp only [templateToTemplate_eq, Option.getD_some]
    rw [GoMap.find_insert_self]
  · simp only [computeCluster, Option.getD_some]
    rw [GoMap.find_insert_ne _ _ (by decide), GoMap.find_insert_self]
  · simp only [computeCluster, Option.getD_some]
    rw [GoMap.find_insert_self]
  · intro d h
    obtain ⟨o, bt, imt, ho, hbt, himt, holab, honame, hbt1, hbt2, him1, him2⟩ :=
      computeMachineDeployment_ok_shape ext s mdt d h
    refine ⟨?_, ?_, ?_⟩
    · intro o' ho'
      rw [ho] at ho'
      injection ho' with he
      subst he
      simp only [holab, Option.getD_some]
      constructor
      · rw [GoMap.find_insert_ne _ _ (by decide), GoMap.find_insert_ne _ _ (by decide),
          GoMap.find_insert_self]
      · rw [GoMap.find_insert_ne _ _ (by decide), GoMap.find_insert_self]
    · intro bt' hbt'
      rw [hbt] at hbt'
      injection hbt' with he
      subst he
      exact ⟨hbt1, hbt2⟩
    · intro imt' himt'
      rw [himt] at himt'
      injection himt' with he
      subst he
      exact ⟨him1, him2⟩

/-- Witness for claim C3: on a concrete scope, the computed
machine-deployment object carries the cluster-identity label valued
`clu` and the ownership label valued empty. -/
theorem computed_objects_carry_topology_labels_witness :
    GoMap.find (((exComputedMD.object).getD default).labels.getD []) clusterLabelName
      = some ("clu")
    ∧ GoMap.find (((exComputedMD.object).getD default).labels.getD [])
        clusterTopologyOwnedLabel = some ("") := by
  obtain ⟨h1, h2⟩ :=
    ((computed_objects_carry_topology_labels exGen exScope1 exInput default default
      exMDT1).2.2 exComputedMD (by rfl)).1 ((exComputedMD.object).getD default) (by rfl)
  exact ⟨h1, h2⟩

/-- Counterexample for claim C4: a current machine deployment whose
object exists but carries the empty name.  The claim, as stated, demands
a freshly generated name (the current reference carries no non-empty
name); the code instead reuses the empty name verbatim. -/
theorem naming_reuse_counterexample :
    computeMachineDeployment exGen cexScope exMDT1 = .ok cexComputed
    ∧ (cexComputed.object.getD default).name = ""
    ∧ GoMap.find (cexScope.current.machineDeployments.getD []) ("wg")
        = some { object := some cexMDObject
                 bootstrapTemplate := none
                 infrastructureMachineTemplate := none }
    ∧ cexMDObject.name = ""
    ∧ exGen.generateName
        ((cexScope.current.cluster.getD default).name ++ "-" ++ exMDT1.name ++ "-")
        = "clu-wg-abcde"
    ∧ ("" : String) ≠ "clu-wg-abcde" :=
  ⟨rfl, rfl, rfl, rfl, rfl, by decide⟩

/-- Claim C4 (amended): `templateToObject` and `templateToTemplate` name
their result after the current reference exactly when it is non-nil with
a non-empty name, generating from the role prefix otherwise; the
machine-deployment object construction reuses the current object's name
whenever a current machine deployment with a non-nil object exists —
even when that name is empty — and generates from the cluster-name plus
instance-name prefix otherwise. -/
theorem naming_stability_amended (ext : Externals) (s : Scope)
    (input : TemplateToInput) (mdt : MachineDeploymentTopology) :
    (∀ obj, templateToObject ext input = .ok obj → obj.name = nameAfterReuse ext input)
    ∧ (templateToTemplate ext input).name = nameAfterReuse ext input
    ∧ (∀ d o, computeMachineDeployment ext s mdt = .ok d → d.object = some o →
        o.name = (match GoMap.find (s.current.machineDeployments.getD []) mdt.name with
          | some cmd => (match cmd.object with
            | some co => co.name
            | none => ext.generateName
                ((s.current.cluster.getD default).name ++ "-" ++ mdt.name ++ "-"))
          | none => ext.generateName
              ((s.current.cluster.getD default).name ++ "-" ++ mdt.name ++ "-"))) := by
  refine ⟨templateToObject_name ext input, ?_, ?_⟩
  · rw [templateToTemplate_eq]
  · intro d o h ho
    obtain ⟨o', bt, imt, ho', hbt, himt, holab, honame, hrest⟩ :=
      computeMachineDeployment_ok_shape ext s mdt d h
    rw [ho'] at ho
    injection ho with he
    subst he
    exact honame

/-- Witness for the amended claim C4: a current reference named `cur` is
reused verbatim, and with no current machine deployment the object name
is generated from the cluster-name plus instance-name prefix. -/
theorem naming_stability_amended_witness :
    exObjCur.name = "cur"
    ∧ ((exComputedMD.object).getD default).name = "clu-wg-abcde" := by
  constructor
  · rw [(naming_stability_amended exGen exScope1 exInputCur exMDT1).1 exObjCur rfl]
    rfl
  · rw [(naming_stability_amended exGen exScope1 exInputCur exMDT1).2.2 exComputedMD
      ((exComputedMD.object).getD default) rfl rfl]
    rfl

/-- Claim C5: a topology entry whose class is absent from the blueprint's
machine-deployment class map makes the whole pass fail with no desired
state, and the component-level error names the missing class (and the
cluster class). -/
theorem unknown_class_fails_pass (ext : Externals) (s : Scope) :
    (∀ mdt, mdt ∈ s.blueprint.topology.workers →
      GoMap.find s.blueprint.machineDeployments mdt.clsName = none →
      ∃ e, computeDesiredState ext s = .error e)
    ∧ (∀ mdt, GoMap.find s.blueprint.machineDeployments mdt.clsName = none →
      computeMachineDeployment ext s mdt
        = .error ("MachineDeployment blueprint " ++ mdt.clsName
            ++ " not found in ClusterClass " ++ s.blueprint.clusterClass.name)) := by
  have h2 : ∀ mdt, GoMap.find s.blueprint.machineDeployments mdt.clsName = none →
      computeMachineDeployment ext s mdt
        = .error ("MachineDeployment blueprint " ++ mdt.clsName
            ++ " not found in ClusterClass " ++ s.blueprint.clusterClass.name) := by
    intro mdt hfind
    simp only [computeMachineDeployment]
    rw [hfind]
  refine ⟨?_, h2⟩
  intro mdt hmem hfind
  exact computeDesiredState_error_of_md_error ext s mdt _ hmem (h2 mdt hfind)

/-- Witness for claim C5: one valid entry plus one entry of the unknown
class `missing` — the whole pass errors, and the component error names
the class. -/
theorem unknown_class_fails_pass_witness :
    (∃ e, computeDesiredState exGen exScope5 = .error e)
    ∧ computeMachineDeployment exGen exScope5 (exMDT ("missing") ("wg2"))
        = .error ("MachineDeployment blueprint missing not found in ClusterClass cc") := by
  constructor
  · exact (unknown_class_fails_pass exGen exScope5).1 (exMDT ("missing") ("wg2"))
      (by decide) rfl
  · rw [(unknown_class_fails_pass exGen exScope5).2 (exMDT ("missing") ("wg2")) rfl]
    rfl

/-- Claim C9: on a successful `computeControlPlane` the version field is
always written with the topology version; the replicas field is written
exactly when the topology specifies a control-plane replica count, and is
otherwise left untouched — equal to the replicas carried by the object
the template generation step produced, not zeroed. -/
theorem computeControlPlane_replicas_version (ext : Externals) (s : Scope)
    (t : Option Unstructured) :
    ∀ cp, computeControlPlane ext s t = .ok cp →
      cp.version = some s.blueprint.topology.version
      ∧ (∀ n, s.blueprint.topology.controlPlane.replicas = some n → cp.replicas = some n)
      ∧ (s.blueprint.topology.controlPlane.replicas = none →
          ∀ obj, templateToObject ext (controlPlaneTemplateInput s) = .ok obj →
            cp.replicas = obj.replicas) := by
  intro cp h
  simp only [computeControlPlane] at h
  cases hg : templateToObject ext (controlPlaneTemplateInput s) with
  | error e =>
    rw [hg] at h
    exact Except.noConfusion h
  | ok obj =>
    rw [hg] at h
    simp only [Except.ok.injEq] at h
    subst h
    refine ⟨rfl, ?_, ?_⟩
    · intro n hn
      simp only [hn]
      rfl
    · intro hn obj' hg'
      injection hg' with he
      subst he
      simp only [hn]
      by_cases hcpim : hasControlPlaneInfrastructureMachine s.blueprint = true
      · rw [if_pos hcpim]
        rfl
      · rw [if_neg hcpim]
        rfl

/-- Witness for claim C9: with replica intent 3 the computed control
plane carries version v1.21.2 and replicas 3; with no replica intent the
replicas field keeps the value 7 that the generated object carried. -/
theorem computeControlPlane_replicas_version_witness :
    (exCPsome.version = some ("v1.21.2") ∧ exCPsome.replicas = some 3)
    ∧ exCPnone.replicas = some 7 := by
  refine ⟨⟨?_, ?_⟩, ?_⟩
  · exact (computeControlPlane_replicas_version exGen (exScope (some 3) []) none
      exCPsome rfl).1
  · exact (computeControlPlane_replicas_version exGen (exScope (some 3) []) none
      exCPsome rfl).2.1 3 rfl
  · rw [(computeControlPlane_replicas_version exGen (exScope none []) none
      exCPnone rfl).2.2 rfl exObjCP rfl]
    rfl

/-- Claim C1: `computeDesiredState` returns either a fully populated
desired state or an error; whenever a component computation fails —
infrastructure cluster, control-plane infrastructure-machine template,
control plane, or any machine deployment — the whole call returns an
error and no desired state (the `Except` carries nothing else). -/
theorem computeDesiredState_all_or_error (ext : Externals) (s : Scope) :
    (∀ ds, computeDesiredState ext s = .ok ds → fullyPopulated s.blueprint ds)
    ∧ (∀ e, computeInfrastructureCluster ext s = .error e →
        computeDesiredState ext s = .error e)
    ∧ (∀ e, hasControlPlaneInfrastructureMachine s.blueprint = true →
        computeControlPlaneInfrastructureMachineTemplate ext s = .error e →
        ∃ e', computeDesiredState ext s = .error e')
    ∧ (∀ e, hasControlPlaneInfrastructureMachine s.blueprint = false →
        computeControlPlane ext s none = .error e →
        ∃ e', computeDesiredState ext s = .error e')
    ∧ (∀ e t, hasControlPlaneInfrastructureMachine s.blueprint = true →
        computeControlPlaneInfrastructureMachineTemplate ext s = .ok t →
        computeControlPlane ext s (some t) = .error e →
        ∃ e', computeDesiredState ext s = .error e')
    ∧ (∀ mdt e, mdt ∈ s.blueprint.topology.workers →
        computeMachineDeployment ext s mdt = .error e →
        ∃ e', computeDesiredState ext s = .error e') := by
  refine ⟨?_, ?_, ?_, ?_, ?_, ?_⟩
  · intro ds h
    unfold computeDesiredState at h
    cases hic : computeInfrastructureCluster ext s with
    | error e0 =>
      rw [hic] at h
      exact Except.noConfusion h
    | ok ic =>
      rw [hic] at h
      dsimp only at h
      cases hq : (if hasControlPlaneInfrastructureMachine s.blueprint then
          (computeControlPlaneInfrastructureMachineTemplate ext s).map some
        else .ok none) with
      | error e1 =>
        rw [hq] at h
        exact Except.noConfusion h
      | ok imt =>
        rw [hq] at h
        dsimp only at h
        have himt : hasControlPlaneInfrastructureMachine s.blueprint = true →
            imt.isSome = true := by
          intro hcpim
          rw [if_pos hcpim] at hq
          cases hq2 : computeControlPlaneInfrastructureMachineTemplate ext s with
          | error e4 =>
            rw [hq2] at hq
            exact Except.noConfusion hq
          | ok t =>
            rw [hq2] at hq
            simp only [Except.map, Except.ok.injEq] at hq
            rw [← hq]
            rfl
        cases hcp : computeControlPlane ext s imt with
        | error e2 =>
          rw [hcp] at h
          exact Except.noConfusion h
        | ok cpo =>
          rw [hcp] at h
          dsimp only at h
          by_cases hmd : hasMachineDeployments s.blueprint = true
          · rw [if_pos hmd] at h
            cases hl : computeMachineDeployments ext s s.blueprint.topology.workers [] with
            | error e3 =>
              rw [hl] at h
              exact Except.noConfusion h
            | ok mds =>
              rw [hl] at h
              simp only [Except.ok.injEq] at h
              subst h
              exact ⟨rfl, rfl, ⟨_, rfl, rfl, himt⟩, fun _ => rfl⟩
          · rw [if_neg hmd] at h
            simp only [Except.ok.injEq] at h
            subst h
            exact ⟨rfl, rfl, ⟨_, rfl, rfl, himt⟩, fun hmd' => absurd hmd' hmd⟩
  · intro e he
    unfold computeDesiredState
    rw [he]
  · intro e hcpim he
    cases hic : computeInfrastructureCluster ext s with
    | error e0 =>
      exact ⟨e0, by unfold computeDesiredState; rw [hic]⟩
    | ok ic =>
      refine ⟨e, ?_⟩
      unfold computeDesiredState
      rw [hic]
      dsimp only
      rw [if_pos hcpim, he]
      rfl
  · intro e hcpim he
    cases hic : computeInfrastructureCluster ext s with
    | error e0 =>
      exact ⟨e0, by unfold computeDesiredState; rw [hic]⟩
    | ok ic =>
      refine ⟨e, ?_⟩
      unfold computeDesiredState
      rw [hic]
      dsimp only
      rw [if_neg (by rw [hcpim]; exact Bool.false_ne_true)]
      dsimp only
      rw [he]
  · intro e t hcpim ht he
    cases hic : computeInfrastructureCluster ext s with
    | error e0 =>
      exact ⟨e0, by unfold computeDesiredState; rw [hic]⟩
    | ok ic =>
      refine ⟨e, ?_⟩
      unfold computeDesiredState
      rw [hic]
      dsimp only
      rw [if_pos hcpim, ht]
      dsimp only [Except.map]
      rw [he]
  · intro mdt e hmem herr
    exact computeDesiredState_error_of_md_error ext s mdt e hmem herr

/-- Witness for claim C1: a failing template generator makes the whole
pass fail with the wrapped generator error, and on a successful concrete
pass the computed desired state is fully populated. -/
theorem computeDesiredState_all_or_error_witness :
    computeDesiredState exGenFail (exScope (some 3) [])
      = .error ("failed to generate the InfrastructureCluster object from the FooTemplate: boom")
    ∧ fullyPopulated exScopeAB.blueprint exComputedDS :=
  ⟨(computeDesiredState_all_or_error exGenFail (exScope (some 3) [])).2.1 _ rfl,
   (computeDesiredState_all_or_error exGen exScopeAB).1 exComputedDS rfl⟩

/-- Claim C2: on every successful pass, the key set of the returned
machine-deployment map is exactly the set of instance names declared by
the topology's worker entries, regardless of the current state. -/
theorem machineDeployments_key_set (ext : Externals) (s : Scope) :
    ∀ ds, computeDesiredState ext s = .ok ds → ∀ k,
      k ∈ GoMap.keys (ds.machineDeployments.getD [])
        ↔ k ∈ s.blueprint.topology.workers.map MachineDeploymentTopology.name := by
  intro ds h k
  unfold computeDesiredState at h
  cases hic : computeInfrastructureCluster ext s with
  | error e0 =>
    rw [hic] at h
    exact Except.noConfusion h
  | ok ic =>
    rw [hic] at h
    dsimp only at h
    cases hq : (if hasControlPlaneInfrastructureMachine s.blueprint then
        (computeControlPlaneInfrastructureMachineTemplate ext s).map some
      else .ok none) with
    | error e1 =>
      rw [hq] at h
      exact Except.noConfusion h
    | ok imt =>
      rw [hq] at h
      dsimp only at h
      cases hcp : computeControlPlane ext s imt with
      | error e2 =>
        rw [hcp] at h
        exact Except.noConfusion h
      | ok cpo =>
        rw [hcp] at h
        dsimp only at h
        by_cases hmd : hasMachineDeployments s.blueprint = true
        · rw [if_pos hmd] at h
          cases hl : computeMachineDeployments ext s s.blueprint.topology.workers [] with
          | error e3 =>
            rw [hl] at h
            exact Except.noConfusion h
          | ok mds =>
            rw [hl] at h
            simp only [Except.ok.injEq] at h
            subst h
            simp only [Option.getD_some]
            rw [computeMachineDeployments_ok_keys ext s s.blueprint.topology.workers [] mds hl k]
            simp [GoMap.keys]
        · rw [if_neg hmd] at h
          simp only [Except.ok.injEq] at h
          subst h
          have hw : s.blueprint.topology.workers = [] := by
            cases hw0 : s.blueprint.topology.workers with
            | nil => rfl
            | cons a tl =>
              exfalso
              apply hmd
              unfold hasMachineDeployments
              rw [hw0]
              rfl
          rw [hw]
          simp [GoMap.keys]

/-- Witness for claim C2: for worker entries named wg-a and wg-b, key
wg-a is present in the computed map and the unrelated key zzz is not. -/
theorem machineDeployments_key_set_witness :
    computeDesiredState exGen exScopeAB = .ok exComputedDS
    ∧ ("wg-a") ∈ GoMap.keys (exComputedDS.machineDeployments.getD [])
    ∧ ¬ (("zzz") ∈ GoMap.keys (exComputedDS.machineDeployments.getD [])) := by
  refine ⟨rfl, ?_, ?_⟩
  · exact (machineDeployments_key_set exGen exScopeAB exComputedDS rfl ("wg-a")).mpr
      (by decide)
  · intro hmem
    have hx := (machineDeployments_key_set exGen exScopeAB exComputedDS rfl ("zzz")).mp hmem
    revert hx
    decide

end CAPI
